import Mathlib

/-!
Verification of the DataDock client workflow (frontend `page.tsx`): the
workflow state machine, the validate/save/clear handlers, the axios failure
classification, and the preview reconciliation (joining error coordinates
onto rendered cells). Definitions are a shallow embedding of the TypeScript
source; theorems settle the specified properties.
-/

namespace DataDock

/-- A preview cell value: a scalar (string or number) or JS `null`/absent.
Rendered as `value ?? 'NULL'`. -/
inductive CellValue
  | str (s : String)
  | num (n : Int)
  | null
deriving DecidableEq, Repr

/-- A preview row: a JS object mapping column names to cell values,
`Object.entries` order preserved. -/
abbrev Row := List (String × CellValue)

/-- A per-check outcome object as it arrives from the service (dynamic JS
object): the renderer reads `check.passed === true` and `check.msg`.
`strFields` holds the string-valued fields of the object. -/
structure JsCheck where
  passed : Option Bool
  strFields : List (String × String)
deriving DecidableEq, Repr

/-- The decoded validation response (`res.data`), shaped as the renderer
accesses it: `valid`, `check_results`, `previews`, `error_locations`.
Error coordinates are `[rowIndex, columnName]` pairs. -/
structure ValidationReport where
  valid : Bool
  check_results : List (String × List (String × JsCheck))
  previews : List (String × List Row)
  error_locations : List (String × List (Int × String))
deriving DecidableEq, Repr

/-- `result.error_locations[tableName] || []`. -/
def errorsOf (rep : ValidationReport) (t : String) : List (Int × String) :=
  (rep.error_locations.lookup t).getD []

/-- `errors.some(([r, c]) => r === rowIndex && c === col)` from the cell
render loop (`hasError`). -/
def hasError (rep : ValidationReport) (t : String) (rowIndex : Nat) (col : String) : Bool :=
  (errorsOf rep t).any (fun p => p.1 == (rowIndex : Int) && p.2 == col)

/-- Whether a row object has a column of the given name. -/
def hasColumn (row : Row) (c : String) : Bool :=
  row.any (fun q => q.1 == c)

/-- One rendered `<td>`: column name, value, and the error highlight flag. -/
structure AnnotatedCell where
  col : String
  value : CellValue
  flagged : Bool
deriving DecidableEq, Repr

/-- `Object.entries(row).map(([col, value]) => ...)`: one rendered row. -/
def annotateRow (rep : ValidationReport) (t : String) (rowIndex : Nat) (row : Row) :
    List AnnotatedCell :=
  row.map (fun q => ⟨q.1, q.2, hasError rep t rowIndex q.1⟩)

/-- `rows.map((row, rowIndex) => ...)` with the running row index. -/
def annotateRows (rep : ValidationReport) (t : String) : Nat → List Row → List (List AnnotatedCell)
  | _, [] => []
  | i, row :: rest => annotateRow rep t i row :: annotateRows rep t (i + 1) rest

/-- The rendered preview table for one entry of `result.previews`: headers
from `rows[0]` when present, body from `rows.slice(0, 20)`, and the
"Showing first 20 rows of N" summary (carrying `rows.length`) exactly when
`rows.length > 20`. -/
structure TableRender where
  headers : List String
  body : List (List AnnotatedCell)
  summary : Option Nat
deriving DecidableEq, Repr

/-- The preview-table render for table `t` with preview rows `rows`. -/
def renderTable (rep : ValidationReport) (t : String) (rows : List Row) : TableRender :=
  { headers := match rows with
      | [] => []
      | r :: _ => r.map Prod.fst
    body := annotateRows rep t 0 (rows.take 20)
    summary := if 20 < rows.length then some rows.length else none }

/-- The cell rendered at body position `(i, j)`, when it exists. -/
def renderedCell (rep : ValidationReport) (t : String) (rows : List Row) (i j : Nat) :
    Option AnnotatedCell :=
  ((renderTable rep t rows).body.get? i).bind (fun r => r.get? j)

/-- JS `a || b` on an optional string: the fallback replaces an absent or
empty (falsy) value. -/
def jsOrStr (o : Option String) (fallback : String) : String :=
  match o with
  | some s => if s = "" then fallback else s
  | none => fallback

/-- `check.passed === true ? 'PASSED' : 'FAILED'` (strict equality). -/
def renderedCheckStatus (c : JsCheck) : String :=
  if c.passed = some true then "PASSED" else "FAILED"

/-- `const msg = check.msg || 'No message'`. -/
def renderedCheckMsg (c : JsCheck) : String :=
  jsOrStr (c.strFields.lookup "msg") "No message"

/-- Modelled from the spec (§3), whose data model is
`CheckOutcome = \x7b passed: boolean, message: string \x7d`: the encoding of a
spec-side check outcome as the dynamic object the renderer receives. Used
only to compare the spec's field naming against the renderer. -/
def specCheckOutcome (passed : Bool) (message : String) : JsCheck :=
  ⟨some passed, [("message", message)]⟩

/-- The backend availability signal (`backendStatus`). -/
inductive BackendStatus
  | checking
  | ready
  | error
deriving DecidableEq, Repr

/-- The uploaded file handle: opaque content plus display name. -/
structure UploadedFile where
  name : String
deriving DecidableEq, Repr

/-- The component state: `dataset`, `file`, `result`, `loading`,
`backendStatus`, `showValidation`, `showPreview`. -/
structure WorkflowState where
  dataset : String
  file : Option UploadedFile
  result : Option ValidationReport
  loading : Bool
  backendStatus : BackendStatus
  showValidation : Bool
  showPreview : Bool
deriving DecidableEq, Repr

/-- A network request issued by a handler. -/
inductive Request
  | validate (dataset : String)
  | save (dataset : String) (previews : List (String × List Row))
deriving DecidableEq, Repr

/-- The observable outcome of one handler invocation: the new component
state, the network requests issued, and the `alert` messages shown. -/
structure ActionResult where
  state : WorkflowState
  requests : List Request
  alerts : List String
deriving DecidableEq, Repr

/-- The axios error object as `handleValidate`'s catch block inspects it:
`err.response?.status`, `err.response?.data?.detail`, `err.code`,
`err.message`. -/
structure AxiosErr where
  responseStatus : Option Nat
  responseDetail : Option String
  code : Option String
  message : String
deriving DecidableEq, Repr

/-- The four failure classes of a validate attempt. -/
inductive ErrClass
  | missingInput
  | serviceFault (message : String)
  | unreachable
  | rejected (message : String)
deriving DecidableEq, Repr

/-- Whether a classification is a `serviceFault`. -/
def isServiceFault : ErrClass → Bool
  | .serviceFault _ => true
  | _ => false

/-- The catch block of `handleValidate`: `err.response?.status === 500`
first, then `err.code === 'ERR_NETWORK'`, else the generic branch. -/
def classifyAxios (e : AxiosErr) : ErrClass :=
  if e.responseStatus = some 500 then
    .serviceFault (jsOrStr e.responseDetail "Validation crashed. Check backend logs.")
  else if e.code = some "ERR_NETWORK" then
    .unreachable
  else
    .rejected (jsOrStr e.responseDetail e.message)

/-- The alert text shown for each failure class. -/
def failureAlert : ErrClass → String
  | .missingInput => "Please select dataset and file"
  | .serviceFault m => "Server error: " ++ m
  | .unreachable => "Network error — backend may be down. Check if uvicorn is running on port 8000."
  | .rejected m => "Validation failed: " ++ m

/-- What the network returns to an issued validate request. -/
inductive ValidateOutcome
  | success (rep : ValidationReport)
  | failure (e : AxiosErr)
deriving DecidableEq, Repr

/-- What the network returns to an issued save request. -/
inductive SaveOutcome
  | success
  | failure (message : String)
deriving DecidableEq, Repr

/-- The state after `setLoading(true); setResult(null);`, before the
validate request is issued. -/
def validateMidState (s : WorkflowState) : WorkflowState :=
  { s with loading := true, result := none }

/-- `handleValidate`: the `if (!file || !dataset)` guard alerts locally and
returns; otherwise the request is issued from the mid state, and the
response either installs the new report or alerts per the classification.
`setLoading(false)` runs after the try/catch either way. -/
def handleValidate (s : WorkflowState) (outcome : ValidateOutcome) : ActionResult :=
  if s.file.isNone || s.dataset = "" then
    { state := s, requests := [], alerts := ["Please select dataset and file"] }
  else
    match outcome with
    | .success rep =>
        { state := { validateMidState s with
              result := some rep, showValidation := true, showPreview := true, loading := false }
          requests := [.validate s.dataset]
          alerts := [] }
    | .failure e =>
        { state := { validateMidState s with loading := false }
          requests := [.validate s.dataset]
          alerts := [failureAlert (classifyAxios e)] }

/-- `handleSave`: the `if (!result?.valid)` guard alerts locally and
returns; otherwise `result.previews` is posted, and success clears
`result`, `file` and `dataset` while failure only alerts. -/
def handleSave (s : WorkflowState) (outcome : SaveOutcome) : ActionResult :=
  match s.result with
  | none => { state := s, requests := [], alerts := ["Fix validation errors first"] }
  | some rep =>
    if rep.valid then
      match outcome with
      | .success =>
          { state := { s with result := none, file := none, dataset := "" }
            requests := [.save s.dataset rep.previews]
            alerts := ["Data saved to SQLite database!"] }
      | .failure m =>
          { state := s
            requests := [.save s.dataset rep.previews]
            alerts := ["Save failed: " ++ m] }
    else
      { state := s, requests := [], alerts := ["Fix validation errors first"] }

/-- `handleClear`: unconditional reset of `result`, `file`, `dataset` and
the two disclosure toggles. -/
def handleClear (s : WorkflowState) : WorkflowState :=
  { s with result := none, file := none, dataset := ""
           showValidation := true, showPreview := true }

/-- The validate button's `disabled` expression:
`loading || !file || !dataset || backendStatus !== 'ready'`. -/
def validateDisabled (s : WorkflowState) : Bool :=
  s.loading || s.file.isNone || (s.dataset = "") || (s.backendStatus ≠ .ready)

/-- The validate action is enabled iff the button is not disabled. -/
def validateEnabled (s : WorkflowState) : Bool :=
  !validateDisabled s

/-- Clicking the validate button: a disabled button fires no handler. -/
def clickValidate (s : WorkflowState) (outcome : ValidateOutcome) : ActionResult :=
  if validateEnabled s then handleValidate s outcome
  else { state := s, requests := [], alerts := [] }

/-- The save button is rendered only under `result.valid &&`. -/
def saveVisible (s : WorkflowState) : Bool :=
  match s.result with
  | some rep => rep.valid
  | none => false

/-- The Idle state of the workflow: no report, no file, empty selector. -/
def isIdle (s : WorkflowState) : Prop :=
  s.result = none ∧ s.file = none ∧ s.dataset = ""

/-! Concrete data used to instantiate the theorems. -/

/-- A concrete uploaded file. -/
def wFile : UploadedFile := ⟨"risk.xlsx"⟩

/-- A concrete preview row. -/
def wRow : Row := [("id", .num 1), ("amount", .num 100)]

/-- A concrete failing report flagging the `amount` cell of row 0. -/
def wRep : ValidationReport :=
  { valid := false
    check_results :=
      [("risk", [("nonNegative", ⟨some false, [("msg", "amount must be non-negative")]⟩)])]
    previews := [("risk", [wRow])]
    error_locations := [("risk", [((0 : Int), "amount")])] }

/-- A concrete 25-row preview. -/
def wRows25 : List Row := List.replicate 25 [("a", CellValue.num 1)]

/-- A concrete 21-row preview. -/
def wRows21 : List Row := List.replicate 21 [("a", CellValue.num 1)]

/-- A concrete passing report. -/
def wValidRep : ValidationReport :=
  { valid := true
    check_results := [("risk", [("nonNegative", ⟨some true, [("msg", "ok")]⟩)])]
    previews := [("risk", [wRow])]
    error_locations := [] }

/-- A concrete workflow state holding the failing report. -/
def wState : WorkflowState :=
  { dataset := "Risk", file := some wFile, result := some wRep, loading := false
    backendStatus := .ready, showValidation := true, showPreview := true }

/-- A concrete workflow state holding the passing report. -/
def wStateValid : WorkflowState :=
  { wState with result := some wValidRep }

/-- A concrete axios error: HTTP 503 with a service-provided detail. -/
def wErr503 : AxiosErr :=
  ⟨some 503, some "overloaded", none, "Request failed with status code 503"⟩

/-- A concrete axios error: HTTP 500 with an empty detail string. -/
def wErr500 : AxiosErr :=
  ⟨some 500, some "", none, "Request failed with status code 500"⟩

/-! Helper lemmas about the render pipeline. -/

theorem annotateRows_get? (rep : ValidationReport) (t : String) (rows : List Row) :
    ∀ k i, (annotateRows rep t k rows).get? i
      = (rows.get? i).map (fun row => annotateRow rep t (k + i) row) := by
  induction rows with
  | nil => intro k i; simp [annotateRows]
  | cons row rest ih =>
    intro k i
    cases i with
    | zero => simp [annotateRows]
    | succ n =>
      have h : k + 1 + n = k + (n + 1) := by omega
      show (annotateRows rep t (k + 1) rest).get? n
          = (rest.get? n).map (fun row => annotateRow rep t (k + (n + 1)) row)
      rw [ih (k + 1) n, h]

theorem annotateRows_length (rep : ValidationReport) (t : String) (rows : List Row) :
    ∀ k, (annotateRows rep t k rows).length = rows.length := by
  induction rows with
  | nil => intro k; rfl
  | cons row rest ih => intro k; simp [annotateRows, ih]

theorem get?_some_lt {α : Type} {l : List α} {n : Nat} {a : α} (h : l.get? n = some a) :
    n < l.length := by
  by_contra hc
  push_neg at hc
  rw [List.get?_eq_none.mpr hc] at h
  exact Option.noConfusion h

theorem hasError_iff (rep : ValidationReport) (t : String) (i : Nat) (c : String) :
    hasError rep t i c = true ↔ ((i : Int), c) ∈ errorsOf rep t := by
  unfold hasError
  rw [List.any_eq_true]
  constructor
  · rintro ⟨⟨r, col⟩, hmem, hp⟩
    simp only [Bool.and_eq_true, beq_iff_eq] at hp
    obtain ⟨h1, h2⟩ := hp
    subst h1
    subst h2
    exact hmem
  · intro hmem
    exact ⟨_, hmem, by simp⟩

theorem renderedCell_eq_some {rep : ValidationReport} {t : String} {rows : List Row}
    {i j : Nat} {cell : AnnotatedCell}
    (h : renderedCell rep t rows i j = some cell) :
    ∃ row v, rows.get? i = some row ∧ i < rows.length ∧ i < 20 ∧
      row.get? j = some (cell.col, v) ∧
      cell = ⟨cell.col, v, hasError rep t i cell.col⟩ := by
  unfold renderedCell renderTable at h
  simp only at h
  rw [Option.bind_eq_some] at h
  obtain ⟨arow, harow, hcell⟩ := h
  rw [annotateRows_get? rep t (rows.take 20) 0 i] at harow
  rw [Option.map_eq_some'] at harow
  obtain ⟨row, hrow, hann⟩ := harow
  have hi20 : i < 20 := lt_of_lt_of_le (get?_some_lt hrow) (by simpa using List.length_take_le 20 rows)
  have hrow' : rows.get? i = some row := by
    rw [← List.get?_take hi20]
    exact hrow
  have hlen : i < rows.length := get?_some_lt hrow'
  subst hann
  unfold annotateRow at hcell
  rw [List.get?_map, Option.map_eq_some'] at hcell
  obtain ⟨⟨c, v⟩, hq, hcq⟩ := hcell
  refine ⟨row, v, hrow', hlen, hi20, ?_, ?_⟩
  · rw [hq]
    simp only [Nat.zero_add] at hcq
    rw [← hcq]
  · simp only [Nat.zero_add] at hcq
    rw [← hcq]

/-- Claim C1: for every report, table and rendered preview cell, the cell is
flagged iff its `(rowIndex, columnName)` coordinate is a member of
`errorLocations[T]`; a coordinate naming an out-of-bounds row or an absent
column matches no rendered cell, and a table with no `errorLocations` entry
flags no cell. -/
theorem C1_cell_flagging (rep : ValidationReport) (t : String) (rows : List Row) :
    (∀ i j cell, renderedCell rep t rows i j = some cell →
        (cell.flagged = true ↔ ((i : Int), cell.col) ∈ errorsOf rep t)) ∧
    (∀ p, p ∈ errorsOf rep t →
        (p.1 < 0 ∨ (rows.length : Int) ≤ p.1 ∨
          (∀ row, rows.get? p.1.toNat = some row → hasColumn row p.2 = false)) →
        ∀ i j cell, renderedCell rep t rows i j = some cell →
          ¬((i : Int) = p.1 ∧ cell.col = p.2)) ∧
    (rep.error_locations.lookup t = none →
        ∀ i j cell, renderedCell rep t rows i j = some cell → cell.flagged = false) := by
  refine ⟨?_, ?_, ?_⟩
  · intro i j cell hcell
    obtain ⟨row, v, _, _, _, _, hc⟩ := renderedCell_eq_some hcell
    have hfl : cell.flagged = hasError rep t i cell.col := by
      conv_lhs => rw [hc]
    rw [hfl]
    exact hasError_iff rep t i cell.col
  · rintro p hp hcond i j cell hcell ⟨hi, hcol⟩
    obtain ⟨row, v, hrow, hlen, _, hq, _⟩ := renderedCell_eq_some hcell
    rcases hcond with hneg | hbig | habsent
    · omega
    · have : (i : Int) < (rows.length : Int) := by exact_mod_cast hlen
      omega
    · have htn : p.1.toNat = i := by omega
      have hmem : (cell.col, v) ∈ row := List.get?_mem hq
      have hfalse : hasColumn row p.2 = false := by
        apply habsent
        rw [htn]
        exact hrow
      have htrue : hasColumn row p.2 = true := by
        unfold hasColumn
        rw [List.any_eq_true]
        exact ⟨(cell.col, v), hmem, by simp [hcol]⟩
      rw [hfalse] at htrue
      exact Bool.noConfusion htrue
  · intro hnone i j cell hcell
    obtain ⟨row, v, _, _, _, _, hc⟩ := renderedCell_eq_some hcell
    have hfl : cell.flagged = hasError rep t i cell.col := by
      conv_lhs => rw [hc]
    rw [hfl]
    unfold hasError errorsOf
    rw [hnone]
    rfl

/-- Witness for C1: in the concrete report `wRep`, the `amount` cell of row 0
is rendered and flagged, by the claim's membership criterion. -/
theorem C1_cell_flagging_witness :
    renderedCell wRep "risk" [wRow] 0 1 = some ⟨"amount", CellValue.num 100, true⟩ ∧
    (AnnotatedCell.mk "amount" (CellValue.num 100) true).flagged = true :=
  ⟨by decide,
   ((C1_cell_flagging wRep "risk" [wRow]).1 0 1 ⟨"amount", CellValue.num 100, true⟩
      (by decide)).mpr (by decide)⟩

/-- Claim C2: every preview with more than 20 rows renders exactly the
first 20 rows in preview order plus a summary recording the total row
count, from which the remainder is total − 20 — in particular 5 for a
25-row preview; a preview of at most 20 rows renders every row with no
summary; an empty preview yields an empty column header. -/
theorem C2_reconciliation_cap (rep : ValidationReport) (t : String) (rows : List Row) :
    (20 < rows.length →
        (renderTable rep t rows).body.length = 20 ∧
        (∀ i, i < 20 →
          (renderTable rep t rows).body.get? i
            = (rows.get? i).map (fun row => annotateRow rep t i row)) ∧
        (renderTable rep t rows).summary = some rows.length) ∧
    (rows.length = 25 →
        (renderTable rep t rows).summary = some 25 ∧ 25 - 20 = 5) ∧
    (rows.length ≤ 20 →
        (renderTable rep t rows).body.length = rows.length ∧
        (∀ i, (renderTable rep t rows).body.get? i
            = (rows.get? i).map (fun row => annotateRow rep t i row)) ∧
        (renderTable rep t rows).summary = none) ∧
    (rows = [] → (renderTable rep t rows).headers = []) := by
  refine ⟨?_, ?_, ?_, ?_⟩
  · intro h20
    refine ⟨?_, ?_, ?_⟩
    · unfold renderTable
      simp only [annotateRows_length, List.length_take]
      omega
    · intro i hi
      unfold renderTable
      simp only [annotateRows_get? rep t (rows.take 20) 0 i, Nat.zero_add]
      rw [List.get?_take hi]
    · unfold renderTable
      simp only
      rw [if_pos h20]
  · intro h25
    constructor
    · unfold renderTable
      simp [h25]
    · rfl
  · intro hle
    refine ⟨?_, ?_, ?_⟩
    · unfold renderTable
      simp only [annotateRows_length, List.length_take]
      omega
    · intro i
      unfold renderTable
      simp only [annotateRows_get? rep t (rows.take 20) 0 i, Nat.zero_add]
      by_cases hi : i < 20
      · rw [List.get?_take hi]
      · push_neg at hi
        rw [List.get?_eq_none.mpr (by simp; omega), List.get?_eq_none.mpr (by omega)]
    · unfold renderTable
      simp only
      rw [if_neg (by omega)]
  · intro hnil
    subst hnil
    rfl

/-- Witness for C2: the concrete 25-row preview `wRows25` renders a 20-row
body with a summary of 25 (5 more rows), the 21-row preview `wRows21`
renders a 20-row body with a summary of 21, and an empty preview renders an
empty header. -/
theorem C2_reconciliation_cap_witness :
    (renderTable wRep "t" wRows25).body.length = 20 ∧
    (renderTable wRep "t" wRows25).summary = some 25 ∧
    (renderTable wRep "t" wRows21).body.length = 20 ∧
    (renderTable wRep "t" wRows21).summary = some 21 ∧
    (renderTable wRep "t" []).headers = [] := by
  have h25 := (C2_reconciliation_cap wRep "t" wRows25).1 (by decide)
  have h25s := (C2_reconciliation_cap wRep "t" wRows25).2.1 (by decide)
  have h21 := (C2_reconciliation_cap wRep "t" wRows21).1 (by decide)
  exact ⟨h25.1, h25s.1, h21.1, h21.2.2, (C2_reconciliation_cap wRep "t" []).2.2.2 rfl⟩

/-- Claim C3 counterexample: HTTP 503 is a server-side failure status, yet
the code classifies it `rejected` — only status 500 yields `serviceFault`;
and a present-but-empty detail on a 500 is replaced by the generic fallback
rather than carried. -/
theorem C3_counterexample :
    classifyAxios wErr503 = ErrClass.rejected "overloaded" ∧
    isServiceFault (classifyAxios wErr503) = false ∧
    classifyAxios wErr500
      = ErrClass.serviceFault "Validation crashed. Check backend logs." := by
  decide

/-- Claim C3 (amended): a failed validate attempt is classified by exactly
one of four mutually exclusive classes in precedence order — MissingInput
when selector or file is absent, decided locally with no request issued;
otherwise, for an issued request, ServiceFault when the response status is
exactly 500 (not any server-side 5xx status), carrying the detail when
present and non-empty, else the generic fallback; otherwise Unreachable on
`ERR_NETWORK`; otherwise Rejected with the detail when present and
non-empty, else the raw failure message. -/
theorem C3_failure_classification (s : WorkflowState) (e : AxiosErr)
    (outcome : ValidateOutcome) :
    (s.file = none ∨ s.dataset = "" →
        handleValidate s outcome
          = { state := s, requests := [], alerts := ["Please select dataset and file"] }) ∧
    (s.file ≠ none → s.dataset ≠ "" →
        (handleValidate s (.failure e)).requests = [.validate s.dataset] ∧
        (handleValidate s (.failure e)).alerts = [failureAlert (classifyAxios e)]) ∧
    (e.responseStatus = some 500 →
        classifyAxios e
          = .serviceFault (jsOrStr e.responseDetail "Validation crashed. Check backend logs.")) ∧
    (e.responseStatus ≠ some 500 → e.code = some "ERR_NETWORK" →
        classifyAxios e = .unreachable) ∧
    (e.responseStatus ≠ some 500 → e.code ≠ some "ERR_NETWORK" →
        classifyAxios e = .rejected (jsOrStr e.responseDetail e.message)) := by
  refine ⟨?_, ?_, ?_, ?_, ?_⟩
  · rintro (h | h) <;> simp [handleValidate, h]
  · intro hf hd
    obtain ⟨f, hfe⟩ := Option.ne_none_iff_exists'.mp hf
    simp [handleValidate, hfe, hd]
  · intro h500
    simp [classifyAxios, h500]
  · intro h500 hnet
    simp [classifyAxios, h500, hnet]
  · intro h500 hnet
    simp [classifyAxios, h500, hnet]

/-- Witness for C3 (amended) at concrete inputs: a missing file is rejected
locally with no request; a 503 failure is Rejected; a 500 failure is a
ServiceFault. -/
theorem C3_failure_classification_witness :
    handleValidate { wState with file := none } (.failure wErr503)
      = { state := { wState with file := none }, requests := []
          alerts := ["Please select dataset and file"] } ∧
    classifyAxios wErr503 = .rejected (jsOrStr wErr503.responseDetail wErr503.message) ∧
    classifyAxios wErr500
      = .serviceFault (jsOrStr wErr500.responseDetail "Validation crashed. Check backend logs.") :=
  ⟨(C3_failure_classification { wState with file := none } wErr503
      (.failure wErr503)).1 (Or.inl rfl),
   (C3_failure_classification wState wErr503 (.failure wErr503)).2.2.2.2
      (by decide) (by decide),
   (C3_failure_classification wState wErr500 (.failure wErr500)).2.2.1 rfl⟩

/-- Claim C4: the validate action is enabled iff availability is ready, the
selector is non-empty, a file is present and no validate call is in flight;
when any condition fails the click is inert — no request, state unchanged —
and the handler's own guard rejects missing input locally without a
request. -/
theorem C4_validate_gate (s : WorkflowState) (outcome : ValidateOutcome) :
    (validateEnabled s = true ↔
        (s.backendStatus = .ready ∧ s.dataset ≠ "" ∧ s.file ≠ none ∧ s.loading = false)) ∧
    (validateEnabled s = false →
        clickValidate s outcome = { state := s, requests := [], alerts := [] }) ∧
    (s.file = none ∨ s.dataset = "" →
        handleValidate s outcome
          = { state := s, requests := [], alerts := ["Please select dataset and file"] }) := by
  refine ⟨?_, ?_, ?_⟩
  · simp only [validateEnabled, validateDisabled, Bool.not_eq_true', Bool.or_eq_false_iff,
      decide_eq_false_iff_not, Option.isNone_eq_false_iff, Option.isSome_iff_ne_none]
    tauto
  · intro h
    simp [clickValidate, h]
  · rintro (h | h) <;> simp [handleValidate, h]

/-- Witness for C4: with a validate call in flight, the button is disabled
and a click changes nothing and issues no request. -/
theorem C4_validate_gate_witness :
    validateEnabled { wState with loading := true } = false ∧
    clickValidate { wState with loading := true } (.failure wErr503)
      = { state := { wState with loading := true }, requests := [], alerts := [] } :=
  ⟨by decide,
   (C4_validate_gate { wState with loading := true } (.failure wErr503)).2.1 (by decide)⟩

/-- Claim C5: when no report exists or the report is invalid, invoking save
is a local no-op — no request, the whole state unchanged, only a local
rejection alert — and the save button is not rendered. -/
theorem C5_save_guard (s : WorkflowState) (outcome : SaveOutcome) :
    (s.result = none →
        handleSave s outcome
          = { state := s, requests := [], alerts := ["Fix validation errors first"] } ∧
        saveVisible s = false) ∧
    (∀ rep, s.result = some rep → rep.valid = false →
        handleSave s outcome
          = { state := s, requests := [], alerts := ["Fix validation errors first"] } ∧
        saveVisible s = false) := by
  constructor
  · intro h
    simp [handleSave, saveVisible, h]
  · intro rep hres hval
    simp [handleSave, saveVisible, hres, hval]

/-- Witness for C5: saving with the concrete invalid report `wRep` is a
local no-op and the save button is hidden. -/
theorem C5_save_guard_witness :
    handleSave wState .success
      = { state := wState, requests := [], alerts := ["Fix validation errors first"] } ∧
    saveVisible wState = false :=
  (C5_save_guard wState .success).2 wRep rfl rfl

/-- Claim C6: a successful save performs the full reset to Idle — report,
file and selector all cleared — while a failed save leaves the entire state
unchanged so report, file and selector are retained. -/
theorem C6_save_effects (s : WorkflowState) (rep : ValidationReport) (m : String)
    (hres : s.result = some rep) (hvalid : rep.valid = true) :
    handleSave s .success
      = { state := { s with result := none, file := none, dataset := "" }
          requests := [.save s.dataset rep.previews]
          alerts := ["Data saved to SQLite database!"] } ∧
    isIdle (handleSave s .success).state ∧
    handleSave s (.failure m)
      = { state := s, requests := [.save s.dataset rep.previews]
          alerts := ["Save failed: " ++ m] } := by
  refine ⟨?_, ?_, ?_⟩
  · simp [handleSave, hres, hvalid]
  · simp [handleSave, hres, hvalid, isIdle]
  · simp [handleSave, hres, hvalid]

/-- Witness for C6: saving the concrete valid report succeeds into the full
reset, and a failed save leaves the state untouched. -/
theorem C6_save_effects_witness :
    handleSave wStateValid .success
      = { state := { wStateValid with result := none, file := none, dataset := "" }
          requests := [.save "Risk" wValidRep.previews]
          alerts := ["Data saved to SQLite database!"] } ∧
    handleSave wStateValid (.failure "disk full")
      = { state := wStateValid, requests := [.save "Risk" wValidRep.previews]
          alerts := ["Save failed: disk full"] } := by
  have h := C6_save_effects wStateValid wValidRep "disk full" rfl rfl
  exact ⟨h.1, h.2.2⟩

/-- Claim C7: after a failed validate call that was actually issued, the
workflow is back in Selecting — report absent, loading off — with the
selector and file unchanged for retry, and the failure surfaced. -/
theorem C7_validate_failure_frame (s : WorkflowState) (e : AxiosErr)
    (hf : s.file ≠ none) (hd : s.dataset ≠ "") :
    (handleValidate s (.failure e)).state.result = none ∧
    (handleValidate s (.failure e)).state.file = s.file ∧
    (handleValidate s (.failure e)).state.dataset = s.dataset ∧
    (handleValidate s (.failure e)).state.loading = false ∧
    (handleValidate s (.failure e)).alerts = [failureAlert (classifyAxios e)] := by
  obtain ⟨f, hfe⟩ := Option.ne_none_iff_exists'.mp hf
  simp [handleValidate, validateMidState, hfe, hd]

/-- Witness for C7 at the concrete state `wState` and the 503 failure. -/
theorem C7_validate_failure_frame_witness :
    (handleValidate wState (.failure wErr503)).state.result = none ∧
    (handleValidate wState (.failure wErr503)).state.file = wState.file ∧
    (handleValidate wState (.failure wErr503)).state.dataset = wState.dataset := by
  have h := C7_validate_failure_frame wState wErr503 (by decide) (by decide)
  exact ⟨h.1, h.2.1, h.2.2.1⟩

/-- Claim C8: clear is total and idempotent — from any workflow state it
yields the Idle state (report, file, selector all cleared), and clearing
twice yields exactly the state of clearing once. -/
theorem C8_clear_idempotent (s : WorkflowState) :
    isIdle (handleClear s) ∧ handleClear (handleClear s) = handleClear s := by
  exact ⟨⟨rfl, rfl, rfl⟩, rfl⟩

/-- Claim C9 counterexample: the renderer reads `check.msg`, not the spec's
`message` field, and substitutes a fallback: a spec-shaped outcome whose
message is "ok" renders "No message", and even a present-but-empty `msg`
field is replaced by the fallback rather than surfaced unchanged. -/
theorem C9_counterexample :
    renderedCheckMsg (specCheckOutcome true "ok") = "No message" ∧
    ("No message" : String) ≠ "ok" ∧
    renderedCheckMsg ⟨some true, [("msg", "")]⟩ = "No message" ∧
    ("No message" : String) ≠ "" := by
  decide

/-- Claim C9 (amended): each per-check outcome is surfaced as PASSED iff its
`passed` field is strictly the boolean `true`, else FAILED, together with
the outcome's `msg` field when that field is present and non-empty, else the
fallback text "No message"; the spec-named `message` field is not read and
an empty message is not passed through unchanged. -/
theorem C9_check_render (c : JsCheck) (m : String) :
    (c.passed = some true → renderedCheckStatus c = "PASSED") ∧
    (c.passed ≠ some true → renderedCheckStatus c = "FAILED") ∧
    (c.strFields.lookup "msg" = some m → m ≠ "" → renderedCheckMsg c = m) ∧
    (c.strFields.lookup "msg" = none ∨ c.strFields.lookup "msg" = some "" →
        renderedCheckMsg c = "No message") := by
  refine ⟨?_, ?_, ?_, ?_⟩
  · intro h
    simp [renderedCheckStatus, h]
  · intro h
    simp [renderedCheckStatus, h]
  · intro h hm
    unfold renderedCheckMsg jsOrStr
    rw [h]
    simp [hm]
  · rintro (h | h) <;> simp [renderedCheckMsg, jsOrStr, h]

/-- Witness for C9 (amended) on a concrete failed check with a non-empty
`msg` field. -/
theorem C9_check_render_witness :
    renderedCheckStatus ⟨some false, [("msg", "amount must be non-negative")]⟩ = "FAILED" ∧
    renderedCheckMsg ⟨some false, [("msg", "amount must be non-negative")]⟩
      = "amount must be non-negative" := by
  have h := C9_check_render ⟨some false, [("msg", "amount must be non-negative")]⟩
      "amount must be non-negative"
  exact ⟨h.2.1 (by decide), h.2.2.1 rfl (by decide)⟩

/-- Claim C10: invoking validate with inputs present nulls the report before
the request is issued — the in-flight state carries no report — so after a
failed call the previously attached report is lost, not retained, while the
selector and file survive. -/
theorem C10_report_discarded (s : WorkflowState) (e : AxiosErr)
    (hf : s.file ≠ none) (hd : s.dataset ≠ "") (hrep : s.result ≠ none) :
    (validateMidState s).result = none ∧
    (validateMidState s).loading = true ∧
    (handleValidate s (.failure e)).state.result = none ∧
    (handleValidate s (.failure e)).state.result ≠ s.result ∧
    (handleValidate s (.failure e)).state.file = s.file ∧
    (handleValidate s (.failure e)).state.dataset = s.dataset := by
  obtain ⟨f, hfe⟩ := Option.ne_none_iff_exists'.mp hf
  simp [handleValidate, validateMidState, hfe, hd]
  exact Ne.symm hrep

/-- Witness for C10: from the concrete state holding a report, the mid-flight
state has none and the failed call does not restore it. -/
theorem C10_report_discarded_witness :
    (validateMidState wState).result = none ∧
    (handleValidate wState (.failure wErr503)).state.result ≠ wState.result := by
  have h := C10_report_discarded wState wErr503 (by decide) (by decide) (by decide)
  exact ⟨h.1, h.2.2.2.1⟩

end DataDock
